import Mathlib

/-
Verification of the red-tide status aggregation and classification engine
(src/update_red_tide.py) against its natural-language specification.

The Python code is shallowly embedded:
  * strings are `List Char`; Python `s.lower()` is `lowerStr`, `a in b` is `strHas b a`;
  * `re.findall(r'[\d,]+', s)` is `extractGroups` (maximal runs of digits/commas);
  * Python `int` on a digit string is `parseIntOpt` (`none` models the `ValueError`
    raised on an empty string, i.e. a comma-only group after comma stripping);
  * floats are modelled as exact rationals (`ℚ`); Python `int(x)` truncation is `pyInt`;
  * timestamps are epoch milliseconds (`Int`); `timedelta.days` is a floored division;
  * a function that can raise returns `Option`; `none` is the exception.
Presentational fields of the Python dicts (slug, last_updated, state, strftime
formatting, latitude/longitude) are plumbing for WordPress/Sheets I/O and are
not part of the aggregation engine; they are omitted from the records below.
-/

/-- Severity tier strings of the source: 'safe', 'caution', 'avoid', 'no_data'. -/
inductive Status where
  | safe
  | caution
  | avoid
  | no_data
deriving DecidableEq, Repr

/-- Python `c.lower()` applied characterwise (`abundance_text.lower()`). -/
def lowerStr (s : List Char) : List Char := s.map Char.toLower

/-- Python string prefix test: `needle` is a prefix of `s`. -/
def strStarts : List Char → List Char → Bool
  | _, [] => true
  | [], _ :: _ => false
  | a :: s, b :: n => decide (a = b) && strStarts s n

/-- Python substring test `needle in hay`. -/
def strHas : List Char → List Char → Bool
  | hay, needle =>
    strStarts hay needle ||
      match hay with
      | [] => false
      | _ :: t => strHas t needle

/-- A character matched by the class `[\d,]` of the source regex. -/
def digitComma (c : Char) : Bool := c.isDigit || decide (c = ',')

/-- Tokenizer accumulating the current `[\d,]+` run (reversed) in `acc`. -/
def groupsAux : List Char → List Char → List (List Char)
  | [], acc => if acc.isEmpty then [] else [acc.reverse]
  | c :: rest, acc =>
    if digitComma c then groupsAux rest (c :: acc)
    else if acc.isEmpty then groupsAux rest []
    else acc.reverse :: groupsAux rest []

/-- `re.findall(r'[\d,]+', text)`: maximal digit-and-comma runs, left to right. -/
def extractGroups (s : List Char) : List (List Char) := groupsAux s []

/-- Python `int(group.replace(',', ''))`.  `none` models the `ValueError` raised
when the group consists of commas only, so that stripping commas leaves `''`. -/
def parseIntOpt (g : List Char) : Option Nat :=
  let ds := g.filter (fun c => decide (c ≠ ','))
  if ds.isEmpty then none
  else some (ds.foldl (fun n c => 10 * n + (c.toNat - 48)) 0)

/-- `(low + high) // 2` over the first two groups; `none` propagates the
`ValueError` of `parseIntOpt`. -/
def midpointNums (g₀ g₁ : List Char) : Option Nat :=
  match parseIntOpt g₀, parseIntOpt g₁ with
  | some lo, some hi => some ((lo + hi) / 2)
  | _, _ => none

def npText : List Char := "not present".toList
def bgText : List Char := "background".toList
def veryLowText : List Char := "very low".toList
def lowText : List Char := "low".toList
def veryText : List Char := "very".toList
def mediumText : List Char := "medium".toList
def highText : List Char := "high".toList

/-- `parse_abundance_number` (src/update_red_tide.py lines 125-155).
`none` models a raised `ValueError`. -/
def parse_abundance_number (txt : List Char) : Option (Nat × Status) :=
  if strHas (lowerStr txt) npText || strHas (lowerStr txt) bgText then
    some (500, Status.safe)
  else if strHas (lowerStr txt) veryLowText then
    some (2500, Status.safe)
  else if strHas (lowerStr txt) lowText && !(strHas (lowerStr txt) veryText) then
    match extractGroups txt with
    | g₀ :: g₁ :: _ => (midpointNums g₀ g₁).map (fun m => (m, Status.caution))
    | _ => some (5000, Status.caution)
  else if strHas (lowerStr txt) mediumText then
    match extractGroups txt with
    | g₀ :: g₁ :: _ => (midpointNums g₀ g₁).map (fun m => (m, Status.avoid))
    | _ => some (50000, Status.avoid)
  else if strHas (lowerStr txt) highText then
    match extractGroups txt with
    | g₀ :: g₁ :: _ => (midpointNums g₀ g₁).map (fun m => (m, Status.avoid))
    | _ => some (500000, Status.avoid)
  else
    some (0, Status.safe)

/-- `{'safe': 0, 'caution': 1, 'avoid': 2}.get(status, 0)` (line 201). -/
def statusScore : Status → Nat
  | Status.safe => 0
  | Status.caution => 1
  | Status.avoid => 2
  | Status.no_data => 0

/-- Python `int(x)`: truncation toward zero (`ceil q = -floor (-q)` for `q < 0`). -/
def pyInt (q : ℚ) : Int :=
  if 0 ≤ q then Rat.floor q else -(Rat.floor (-q))

/-- `get_distance_weight` (lines 170-178). -/
def get_distance_weight (distance : ℚ) : ℚ :=
  if distance ≤ 1 then 1
  else if distance ≤ 3 then 0.7
  else if distance ≤ 10 then 0.4
  else 0.2

/-- `max(0.1, 1 - (age_days / 7.0)) if age_days > 7 else 1.0` (line 206). -/
def age_weight (age_days : Int) : ℚ :=
  if age_days > 7 then max 0.1 (1 - (age_days : ℚ) / 7) else 1

/-- `(now - sample_date).days` over epoch-millisecond timestamps:
`timedelta.days` floors, hence the flooring integer division. -/
def age_days_of (now sample_ms : Int) : Int :=
  Int.fdiv (now - sample_ms) 86400000

/-- Attributes of one FWC feature used by the engine (`feature['attributes']`). -/
structure FwcAttrs where
  HAB_ID : Int
  Abundance : List Char
  SAMPLE_DATE : Int
  LOCATION : List Char
deriving DecidableEq, Repr

/-- The FWC payload: `fwc_data['features']`. -/
structure FwcData where
  features : List FwcAttrs
deriving DecidableEq, Repr

/-- One row of the sample-mapping table for a beach. -/
structure Site where
  HAB_id : Int
  sample_location : List Char
  sample_distance : ℚ
deriving DecidableEq, Repr

/-- One step of the fallback location-name scoring loop of
`_find_hab_data_by_id` (lines 266-284); `best` is `(best_match, best_score)`. -/
def fallbackStep (now : Int) (sll : List Char) (best : Option FwcAttrs × Int)
    (f : FwcAttrs) : Option FwcAttrs × Int :=
  if strHas (lowerStr f.LOCATION) sll || strHas sll (lowerStr f.LOCATION) then
    if max 0 (10 - age_days_of now f.SAMPLE_DATE) > best.2 then
      (some f, max 0 (10 - age_days_of now f.SAMPLE_DATE))
    else best
  else best

/-- `_find_hab_data_by_id` (lines 252-295): exact HAB-ID match first, then the
name-similarity fallback scored by recency.  `now` is the clock value the
Python code reads via `datetime.now()` at line 279. -/
def find_hab_data_by_id (now : Int) (fwc : FwcData) (hab_id : Int)
    (sample_location : List Char) : Option FwcAttrs :=
  match fwc.features.find? (fun f => decide (f.HAB_ID = hab_id)) with
  | some f => some f
  | none => (fwc.features.foldl (fallbackStep now (lowerStr sample_location)) (none, 0)).1

/-- One entry of `site_results` (lines 212-221). -/
structure SiteResult where
  hab_id : Int
  sample_location : List Char
  distance_miles : ℚ
  current_concentration : Nat
  status_contribution : List Char
  sample_date : Int
  raw_abundance : List Char
  weight : ℚ
deriving DecidableEq, Repr

/-- Body of the per-site loop (lines 192-221) for a site whose FWC data was
found: classification, distance/age weighting, and the recorded contribution.
`none` propagates the classifier's `ValueError`.  Returns the `site_results`
entry together with its `weighted_score`. -/
def siteContribution (now : Int) (site : Site) (f : FwcAttrs) :
    Option (SiteResult × ℚ) :=
  match parse_abundance_number f.Abundance with
  | none => none
  | some (cell_count, status) =>
    some ({ hab_id := site.HAB_id
            sample_location := site.sample_location
            distance_miles := site.sample_distance
            current_concentration := cell_count
            status_contribution :=
              if site.sample_distance ≤ 1 then "primary".toList
              else if site.sample_distance ≤ 3 then "secondary".toList
              else "reference".toList
            sample_date := f.SAMPLE_DATE
            raw_abundance := f.Abundance
            weight := get_distance_weight site.sample_distance *
              age_weight (age_days_of now f.SAMPLE_DATE) },
          (statusScore status : ℚ) *
            (get_distance_weight site.sample_distance *
              age_weight (age_days_of now f.SAMPLE_DATE)))

/-- The `for site in sampling_sites` loop (lines 185-221), collecting the
`(site_results, weighted_scores)` pairs in order; sites without FWC data are
skipped, and a classifier exception aborts the whole call (`none`). -/
def beachLoop (now : Int) (fwc : FwcData) : List Site → Option (List (SiteResult × ℚ))
  | [] => some []
  | s :: rest =>
    match find_hab_data_by_id now fwc s.HAB_id s.sample_location with
    | none => beachLoop now fwc rest
    | some f =>
      match siteContribution now s f with
      | none => none
      | some c =>
        match beachLoop now fwc rest with
        | none => none
        | some cs => some (c :: cs)

/-- The `latest_sample_date` update of lines 197-198 (first date, then strict
improvement), folded over the matched sites' dates in loop order. -/
def updateLatest (acc : Option Int) (d : Int) : Option Int :=
  match acc with
  | none => some d
  | some cur => if d > cur then some d else some cur

/-- Python `max(l)` guarded by `if l else 0`; over `Nat` this is a fold from 0. -/
def maxOr0 (l : List Nat) : Nat := l.foldl max 0

/-- The value returned by `calculate_beach_status` (lines 244-250). -/
structure BeachCalc where
  status : Status
  count : Nat
  confidence : Int
  sample_date : Option Int
  sampling_sites : List SiteResult
deriving DecidableEq, Repr

/-- `calculate_beach_status` (lines 157-250).  `now` is the hidden clock value
the Python code reads via `datetime.now()` (lines 203 and 279); it is threaded
explicitly here.  `none` models the `ValueError` a comma-only numeric group
raises inside the classifier. -/
def calculate_beach_status (now : Int) (fwc : FwcData) (sampling_sites : List Site) :
    Option BeachCalc :=
  if sampling_sites.isEmpty then
    some { status := Status.no_data, count := 0, confidence := 0
           sample_date := none, sampling_sites := [] }
  else
    match beachLoop now fwc sampling_sites with
    | none => none
    | some contribs =>
      let site_results := contribs.map Prod.fst
      let weighted_scores := contribs.map Prod.snd
      let latest := site_results.foldl (fun a r => updateLatest a r.sample_date) none
      if weighted_scores.isEmpty then
        some { status := Status.no_data, count := 0, confidence := 0
               sample_date := latest, sampling_sites := site_results }
      else
        let avg := weighted_scores.sum / (weighted_scores.length : ℚ)
        let total_weight := (site_results.map SiteResult.weight).sum
        some { status :=
                 if avg ≥ 1.5 then Status.avoid
                 else if avg ≥ 0.5 then Status.caution
                 else Status.safe
               count := maxOr0 (site_results.map SiteResult.current_concentration)
               confidence :=
                 min 100 (pyInt (total_weight * 50 + (site_results.length : ℚ) * 10))
               sample_date := latest
               sampling_sites := site_results }

/-- The beach-status fields consumed by the city/region rollups
(`b['current_status']`, `b['peak_count']`, `b['confidence_score']`,
`b['location_name']`, `b['city']`, `b['region']`). -/
structure BeachStatus where
  location_name : List Char
  current_status : Status
  peak_count : Nat
  confidence_score : Int
  city : List Char
  region : List Char
deriving DecidableEq, Repr

/-- `status_priority = {'avoid': 3, 'caution': 2, 'safe': 1, 'no_data': 0}`
(lines 360 and 408). -/
def status_priority : Status → Nat
  | Status.avoid => 3
  | Status.caution => 2
  | Status.safe => 1
  | Status.no_data => 0

/-- One step of the worst-status loop: `if status_priority[beach] >
status_priority[worst]: worst = beach` (lines 362-364). -/
def worstStep (w s : Status) : Status :=
  if status_priority s > status_priority w then s else w

/-- The worst-status loop of lines 361-364, starting from `'safe'`. -/
def worst_status (l : List Status) : Status := l.foldl worstStep Status.safe

/-- The city record built at lines 366-382 (presentational fields omitted). -/
structure CityStatus where
  location_name : List Char
  current_status : Status
  peak_count : Nat
  avg_count : Int
  confidence_score : Int
  beach_count : Nat
  beaches_safe : Nat
  beaches_caution : Nat
  beaches_avoid : Nat
  region : List Char
  child_beaches : List (List Char)
deriving DecidableEq, Repr

/-- The rollup body of `process_city` (lines 355-382), taken over the
already-filtered `relevant_beaches`. -/
def processCityCore (city_name city_region : List Char)
    (relevant : List BeachStatus) : CityStatus :=
  let all_counts := (relevant.filter (fun b => decide (b.peak_count > 0))).map BeachStatus.peak_count
  let all_confidences := relevant.map BeachStatus.confidence_score
  { location_name := city_name
    current_status := worst_status (relevant.map BeachStatus.current_status)
    peak_count := maxOr0 all_counts
    avg_count :=
      if all_counts.isEmpty then 0
      else pyInt ((all_counts.sum : ℚ) / (all_counts.length : ℚ))
    confidence_score :=
      if all_confidences.isEmpty then 0
      else pyInt ((all_confidences.sum : ℚ) / (all_confidences.length : ℚ))
    beach_count := relevant.length
    beaches_safe := (relevant.filter (fun b => decide (b.current_status = Status.safe))).length
    beaches_caution := (relevant.filter (fun b => decide (b.current_status = Status.caution))).length
    beaches_avoid := (relevant.filter (fun b => decide (b.current_status = Status.avoid))).length
    region := city_region
    child_beaches := relevant.map BeachStatus.location_name }

/-- `process_city` (lines 341-387): filter the beach results to this city,
return `none` (Python `None`) when no beach matched, else the rollup. -/
def process_city (city_name : List Char) (beach_results : List BeachStatus)
    (city_region : List Char) : Option CityStatus :=
  let relevant := beach_results.filter (fun b => decide (b.city = city_name))
  if relevant.isEmpty then none
  else some (processCityCore city_name city_region relevant)

/-- The region record built at lines 414-431 (presentational fields omitted). -/
structure RegionStatus where
  location_name : List Char
  current_status : Status
  peak_count : Nat
  avg_count : Int
  confidence_score : Int
  beach_count : Nat
  city_count : Nat
  beaches_safe : Nat
  beaches_caution : Nat
  beaches_avoid : Nat
  child_cities : List (List Char)
  child_beaches : List (List Char)
deriving DecidableEq, Repr

/-- The rollup body of `process_region` (lines 403-431), taken over the
already-filtered `relevant_beaches` and `relevant_cities`. -/
def processRegionCore (region_name : List Char) (relevant : List BeachStatus)
    (relevant_cities : List CityStatus) : RegionStatus :=
  let all_counts := (relevant.filter (fun b => decide (b.peak_count > 0))).map BeachStatus.peak_count
  let all_confidences := relevant.map BeachStatus.confidence_score
  { location_name := region_name
    current_status := worst_status (relevant.map BeachStatus.current_status)
    peak_count := maxOr0 all_counts
    avg_count :=
      if all_counts.isEmpty then 0
      else pyInt ((all_counts.sum : ℚ) / (all_counts.length : ℚ))
    confidence_score :=
      if all_confidences.isEmpty then 0
      else pyInt ((all_confidences.sum : ℚ) / (all_confidences.length : ℚ))
    beach_count := relevant.length
    city_count := relevant_cities.length
    beaches_safe := (relevant.filter (fun b => decide (b.current_status = Status.safe))).length
    beaches_caution := (relevant.filter (fun b => decide (b.current_status = Status.caution))).length
    beaches_avoid := (relevant.filter (fun b => decide (b.current_status = Status.avoid))).length
    child_cities := relevant_cities.map CityStatus.location_name
    child_beaches := relevant.map BeachStatus.location_name }

/-- `process_region` (lines 389-436): filter beaches and cities to this
region, return `none` when no beach matched, else the rollup. -/
def process_region (region_name : List Char) (beach_results : List BeachStatus)
    (city_results : List CityStatus) : Option RegionStatus :=
  let relevant := beach_results.filter (fun b => decide (b.region = region_name))
  let relevant_cities := city_results.filter (fun c => decide (c.region = region_name))
  if relevant.isEmpty then none
  else some (processRegionCore region_name relevant relevant_cities)

/-- The per-tier child counts carried by a city rollup result.  The source
stores explicit counts for `safe`, `caution` and `avoid` (`beaches_safe`,
`beaches_caution`, `beaches_avoid`, lines 375-377) and the total
`beach_count` (line 374); the `no_data` count is carried as the total minus
the three explicit counts. -/
def child_counts_by_tier (c : CityStatus) : Status → Nat
  | Status.safe => c.beaches_safe
  | Status.caution => c.beaches_caution
  | Status.avoid => c.beaches_avoid
  | Status.no_data => c.beach_count - (c.beaches_safe + c.beaches_caution + c.beaches_avoid)

/-- Same reading of the per-tier child counts for a region rollup result
(lines 422-426). -/
def region_child_counts_by_tier (r : RegionStatus) : Status → Nat
  | Status.safe => r.beaches_safe
  | Status.caution => r.beaches_caution
  | Status.avoid => r.beaches_avoid
  | Status.no_data => r.beach_count - (r.beaches_safe + r.beaches_caution + r.beaches_avoid)

/-- Python 3 `round` to an integer: round half to even. -/
def pyRound (q : ℚ) : Int :=
  if q - (Rat.floor q : ℚ) < 1/2 then Rat.floor q
  else if 1/2 < q - (Rat.floor q : ℚ) then Rat.floor q + 1
  else if Rat.floor q % 2 = 0 then Rat.floor q else Rat.floor q + 1

/-- Modelled from the spec: `confidence = min(100, round(total_weight × 50 +
contribution_count × 10))`.  This follows the spec's words (`round`); the
source instead truncates with `int(...)` (line 241). -/
def spec_confidence (total_weight : ℚ) (contribution_count : Nat) : Int :=
  min 100 (pyRound (total_weight * 50 + (contribution_count : ℚ) * 10))

/-- `spec_confidence` recomputed from an aggregation result's own
contributions, for comparison against the `confidence` the code stored. -/
def spec_confidence_of (r : BeachCalc) : Int :=
  spec_confidence ((r.sampling_sites.map SiteResult.weight).sum) r.sampling_sites.length

/-- Concrete sampling-site list used in counterexamples and witnesses:
one mapped site 2 miles from the beach. -/
def demoSites : List Site :=
  [{ HAB_id := 1, sample_location := "pier".toList, sample_distance := 2 }]

/-- Concrete FWC payload: one feature with HAB ID 1, category "high" (no
numeric range), sampled at epoch instant 0. -/
def demoFwc : FwcData :=
  { features := [{ HAB_ID := 1, Abundance := "high".toList, SAMPLE_DATE := 0,
                   LOCATION := "pier".toList }] }

/-- The value `calculate_beach_status` returns on `demoSites`/`demoFwc` when
the clock reads 100 days (8640000000 ms) after the sample: age weight 0.1,
distance weight 0.7, weight 0.07, weighted score 0.14 → safe, confidence
`int(0.07 * 50 + 10) = 13`. -/
def demoBeachCalc : BeachCalc :=
  { status := Status.safe
    count := 500000
    confidence := 13
    sample_date := some 0
    sampling_sites :=
      [{ hab_id := 1, sample_location := "pier".toList, distance_miles := 2,
         current_concentration := 500000, status_contribution := "secondary".toList,
         sample_date := 0, raw_abundance := "high".toList, weight := 0.07 }] }

/-- A beach-level result whose tier is `no_data` (a beach whose sampling
sites all lacked FWC data), in the city "Sarasota" of region "Gulf". -/
def ndBeach : BeachStatus :=
  { location_name := "Lido Key".toList, current_status := Status.no_data,
    peak_count := 0, confidence_score := 0,
    city := "Sarasota".toList, region := "Gulf".toList }

/-- A beach-level result with tier `safe`, in the same city and region. -/
def safeBeach : BeachStatus :=
  { location_name := "Siesta Key".toList, current_status := Status.safe,
    peak_count := 1000, confidence_score := 50,
    city := "Sarasota".toList, region := "Gulf".toList }

/-- `{b with current_status := t}`: the tier replacement of the monotonicity
property. -/
def withTier (b : BeachStatus) (t : Status) : BeachStatus :=
  { b with current_status := t }

/-- Sanity check against §8 of the spec: `classify("Not Present")`. -/
lemma classify_not_present_check :
    parse_abundance_number ("Not Present".toList) = some (500, Status.safe) := by decide

/-- Sanity check against §8: keyword precedence overrides numeric extraction. -/
lemma classify_very_low_check :
    parse_abundance_number ("very low (1,000 - 5,000 cells/L)".toList) =
      some (2500, Status.safe) := by decide

/-- Sanity check against §8: `classify("high (600,000 - 1,000,000 cells/L)")`. -/
lemma classify_high_check :
    parse_abundance_number ("high (600,000 - 1,000,000 cells/L)".toList) =
      some (800000, Status.avoid) := by decide

/-- Sanity check against §8: the empty string classifies as `(0, safe)`. -/
lemma classify_empty_check :
    parse_abundance_number ("".toList) = some (0, Status.safe) := by decide

/-- Sanity check against §8: `weight(0.5, 2) == 1.0`. -/
lemma weight_near_fresh_check : get_distance_weight 0.5 * age_weight 2 = 1 := by
  norm_num [get_distance_weight, age_weight]

/-- Sanity check against §8: `weight(5, 10) == 0.04`. -/
lemma weight_far_stale_check : get_distance_weight 5 * age_weight 10 = 0.04 := by
  norm_num [get_distance_weight, age_weight]

/-- The `FloorRing ℚ` instance is built from `Rat.floor`, so the two floors
agree definitionally; this lets `norm_num` evaluate `Rat.floor`. -/
lemma ratFloor_eq_intFloor (q : ℚ) : Rat.floor q = ⌊q⌋ := rfl

/-- The distance weight is one of 1, 0.7, 0.4, 0.2, hence positive. -/
lemma distance_weight_pos (d : ℚ) : 0 < get_distance_weight d := by
  unfold get_distance_weight
  split
  · norm_num
  · split
    · norm_num
    · split <;> norm_num

/-- The distance weight is at most one. -/
lemma distance_weight_le_one (d : ℚ) : get_distance_weight d ≤ 1 := by
  unfold get_distance_weight
  split
  · norm_num
  · split
    · norm_num
    · split <;> norm_num

/-- The age weight is positive: the 0.1 floor applies when `age_days > 7`. -/
lemma age_weight_pos (a : Int) : 0 < age_weight a := by
  unfold age_weight
  split
  · exact lt_max_of_lt_left (by norm_num)
  · norm_num

/-- The age weight is at most one: for `age_days > 7` both `0.1` and
`1 - age_days/7` are at most one. -/
lemma age_weight_le_one (a : Int) : age_weight a ≤ 1 := by
  unfold age_weight
  split
  · rename_i h
    apply max_le
    · norm_num
    · have h7 : (7 : ℚ) < (a : ℚ) := by exact_mod_cast h
      have hpos : (0:ℚ) < (a : ℚ) / 7 := by positivity
      linarith
  · norm_num

/-- `pyInt` of a nonnegative rational is nonnegative. -/
lemma pyInt_nonneg (q : ℚ) (h : 0 ≤ q) : 0 ≤ pyInt q := by
  unfold pyInt
  rw [if_pos h]
  exact Rat.le_floor.mpr (by exact_mod_cast h)

/-- `pyInt` of a nonnegative rational bounded by an integer stays bounded. -/
lemma pyInt_le (q : ℚ) (n : ℤ) (h0 : 0 ≤ q) (h : q ≤ (n : ℚ)) : pyInt q ≤ n := by
  unfold pyInt
  rw [if_pos h0]
  by_contra hc
  push_neg at hc
  have h1 : n + 1 ≤ Rat.floor q := hc
  have h2 : ((n + 1 : ℤ) : ℚ) ≤ q := Rat.le_floor.mp h1
  push_cast at h2
  linarith

/-- Every recorded site contribution has a positive weight (distance weight
times age weight). -/
lemma siteContribution_weight_pos (now : Int) (s : Site) (f : FwcAttrs)
    (p : SiteResult × ℚ) (h : siteContribution now s f = some p) : 0 < p.1.weight := by
  unfold siteContribution at h
  cases hp : parse_abundance_number f.Abundance with
  | none => rw [hp] at h; cases h
  | some v =>
    rw [hp] at h
    obtain ⟨c, st⟩ := v
    cases h
    exact mul_pos (distance_weight_pos _) (age_weight_pos _)

/-- Every contribution collected by the per-site loop has a positive weight. -/
lemma beachLoop_weights_pos (now : Int) (fwc : FwcData) :
    ∀ (sites : List Site) (l : List (SiteResult × ℚ)), beachLoop now fwc sites = some l →
      ∀ c ∈ l, 0 < c.1.weight := by
  intro sites
  induction sites with
  | nil =>
    intro l h c hc
    cases h
    cases hc
  | cons s t ih =>
    intro l h c hc
    rw [beachLoop] at h
    cases hf : find_hab_data_by_id now fwc s.HAB_id s.sample_location with
    | none =>
      rw [hf] at h
      exact ih l h c hc
    | some f =>
      rw [hf] at h
      dsimp only at h
      cases hsc : siteContribution now s f with
      | none => rw [hsc] at h; cases h
      | some p =>
        rw [hsc] at h
        cases hb : beachLoop now fwc t with
        | none => rw [hb] at h; cases h
        | some cs =>
          rw [hb] at h
          cases h
          rcases List.mem_cons.mp hc with rfl | hc2
          · exact siteContribution_weight_pos now s f c hsc
          · exact ih cs hb c hc2

/-- Priority of one worst-status step is the max of the two priorities. -/
lemma worstStep_priority (w s : Status) :
    status_priority (worstStep w s) = max (status_priority w) (status_priority s) := by
  unfold worstStep
  split
  · rename_i h
    exact (Nat.max_eq_right (Nat.le_of_lt h)).symm
  · rename_i h
    exact (Nat.max_eq_left (Nat.le_of_not_lt h)).symm

/-- The worst-status fold computes a running maximum of priorities. -/
lemma foldl_worst_priority : ∀ (l : List Status) (w : Status),
    status_priority (l.foldl worstStep w) =
      l.foldl (fun a s => max a (status_priority s)) (status_priority w) := by
  intro l
  induction l with
  | nil => intro w; rfl
  | cons s t ih =>
    intro w
    simp only [List.foldl_cons]
    rw [ih, worstStep_priority]

/-- A running maximum is monotone in the list (pointwise) and in the seed. -/
lemma foldl_max_mono {l₁ l₂ : List Status}
    (h : List.Forall₂ (fun a b => status_priority a ≤ status_priority b) l₁ l₂) :
    ∀ a₁ a₂ : Nat, a₁ ≤ a₂ →
      l₁.foldl (fun a s => max a (status_priority s)) a₁ ≤
      l₂.foldl (fun a s => max a (status_priority s)) a₂ := by
  induction h with
  | nil => intro a₁ a₂ ha; exact ha
  | cons hab htl ih =>
    intro a₁ a₂ ha
    exact ih _ _ (max_le_max ha hab)

/-- Worst-of is monotone under a pointwise priority increase. -/
lemma worst_status_mono {l₁ l₂ : List Status}
    (h : List.Forall₂ (fun a b => status_priority a ≤ status_priority b) l₁ l₂) :
    status_priority (worst_status l₁) ≤ status_priority (worst_status l₂) := by
  unfold worst_status
  rw [foldl_worst_priority, foldl_worst_priority]
  exact foldl_max_mono h _ _ le_rfl

/-- The pointwise priority order is reflexive. -/
lemma forall2_priority_refl : ∀ (l : List Status),
    List.Forall₂ (fun a b => status_priority a ≤ status_priority b) l l := by
  intro l
  induction l with
  | nil => exact List.Forall₂.nil
  | cons x t ih => exact List.Forall₂.cons le_rfl ih

/-- Replacing one element by one of priority at least as high gives a
pointwise priority increase of the mapped status lists. -/
lemma forall2_map_set : ∀ (l : List BeachStatus) (i : Nat) (b' : BeachStatus),
    (∀ h : i < l.length, status_priority ((l.get ⟨i, h⟩).current_status) ≤
      status_priority b'.current_status) →
    List.Forall₂ (fun a b => status_priority a ≤ status_priority b)
      (l.map BeachStatus.current_status) ((l.set i b').map BeachStatus.current_status) := by
  intro l
  induction l with
  | nil => intro i b' _; simp
  | cons x t ih =>
    intro i b' h
    cases i with
    | zero =>
      simp only [List.set, List.map]
      exact List.Forall₂.cons (h (by simp)) (forall2_priority_refl _)
    | succ j =>
      simp only [List.set, List.map]
      exact List.Forall₂.cons le_rfl (ih j b' (fun hj => h (Nat.succ_lt_succ hj)))

/-- Worst-of over an all-`no_data` list stays at its `'safe'` seed, because
`no_data` has priority 0 and the loop starts from `safe` (priority 1). -/
lemma worst_all_nodata : ∀ (l : List Status),
    (∀ s ∈ l, s = Status.no_data) → worst_status l = Status.safe := by
  intro l
  induction l with
  | nil => intro _; rfl
  | cons s t ih =>
    intro h
    have hs : s = Status.no_data := h s (by simp)
    show (t.foldl worstStep (worstStep Status.safe s)) = Status.safe
    rw [hs]
    exact ih (fun x hx => h x (List.mem_cons_of_mem _ hx))

/-- The four tiers partition any list of beach statuses. -/
lemma length_partition (l : List BeachStatus) :
    l.length = (l.filter (fun b => decide (b.current_status = Status.safe))).length +
      (l.filter (fun b => decide (b.current_status = Status.caution))).length +
      (l.filter (fun b => decide (b.current_status = Status.avoid))).length +
      (l.filter (fun b => decide (b.current_status = Status.no_data))).length := by
  induction l with
  | nil => rfl
  | cons b t ih =>
    cases hb : b.current_status <;> simp [List.filter_cons, hb, ih] <;> omega

/-- Prefix tests compose: a prefix of a prefix is a prefix. -/
lemma strStarts_trans : ∀ (s n p : List Char),
    strStarts s n = true → strStarts n p = true → strStarts s p = true
  | s, _, [], _, _ => by cases s <;> rfl
  | [], [], _ :: _, _, h2 => by simp [strStarts] at h2
  | [], _ :: _, _ :: _, h1, _ => by simp [strStarts] at h1
  | _ :: _, [], _ :: _, _, h2 => by simp [strStarts] at h2
  | a :: s, b :: n, c :: p, h1, h2 => by
    simp only [strStarts, Bool.and_eq_true, decide_eq_true_eq] at h1 h2 ⊢
    exact ⟨h1.1.trans h2.1, strStarts_trans s n p h1.2 h2.2⟩

/-- If a string contains `n` and `p` is a prefix of `n`, it contains `p`:
in particular containing `"very low"` forces containing `"very"`. -/
lemma strHas_mono (n p : List Char) (hpre : strStarts n p = true) :
    ∀ hay, strHas hay n = true → strHas hay p = true := by
  intro hay
  induction hay with
  | nil =>
    intro h
    rw [strHas] at h ⊢
    simp only [Bool.or_eq_true] at h ⊢
    rcases h with h | h
    · exact Or.inl (strStarts_trans _ _ _ h hpre)
    · cases h
  | cons a t ih =>
    intro h
    rw [strHas] at h ⊢
    simp only [Bool.or_eq_true] at h ⊢
    rcases h with h | h
    · exact Or.inl (strStarts_trans _ _ _ h hpre)
    · exact Or.inr (ih h)

/-- The fallback fold of `_find_hab_data_by_id` depends on the clock only
through the per-feature whole-day ages. -/
lemma fallback_foldl_congr (sll : List Char) (n₁ n₂ : Int) :
    ∀ (l : List FwcAttrs),
      (∀ f ∈ l, age_days_of n₁ f.SAMPLE_DATE = age_days_of n₂ f.SAMPLE_DATE) →
      ∀ acc, l.foldl (fallbackStep n₁ sll) acc = l.foldl (fallbackStep n₂ sll) acc := by
  intro l
  induction l with
  | nil => intro _ _; rfl
  | cons f t ih =>
    intro h acc
    have hf := h f (by simp)
    have ht : ∀ g ∈ t, age_days_of n₁ g.SAMPLE_DATE = age_days_of n₂ g.SAMPLE_DATE :=
      fun g hg => h g (List.mem_cons_of_mem _ hg)
    simp only [List.foldl_cons]
    rw [show fallbackStep n₁ sll acc f = fallbackStep n₂ sll acc f by
      simp only [fallbackStep, hf]]
    exact ih ht _

/-- `_find_hab_data_by_id` depends on the clock only through whole-day ages. -/
lemma find_hab_congr (n₁ n₂ : Int) (fwc : FwcData) (hab : Int) (loc : List Char)
    (h : ∀ f ∈ fwc.features, age_days_of n₁ f.SAMPLE_DATE = age_days_of n₂ f.SAMPLE_DATE) :
    find_hab_data_by_id n₁ fwc hab loc = find_hab_data_by_id n₂ fwc hab loc := by
  unfold find_hab_data_by_id
  cases hfind : fwc.features.find? (fun f => decide (f.HAB_ID = hab)) with
  | some f => rfl
  | none => rw [fallback_foldl_congr (lowerStr loc) n₁ n₂ fwc.features h]

/-- A match produced by the fallback fold is a member of the scanned list. -/
lemma fallback_foldl_mem (n : Int) (sll : List Char) :
    ∀ (l : List FwcAttrs) (acc : Option FwcAttrs × Int) (f : FwcAttrs),
      (l.foldl (fallbackStep n sll) acc).1 = some f → f ∈ l ∨ acc.1 = some f := by
  intro l
  induction l with
  | nil => intro acc f h; exact Or.inr h
  | cons x t ih =>
    intro acc f h
    rcases ih (fallbackStep n sll acc x) f h with h1 | h2
    · exact Or.inl (List.mem_cons_of_mem _ h1)
    · unfold fallbackStep at h2
      split at h2
      · split at h2
        · cases h2
          exact Or.inl (List.mem_cons_self _ _)
        · exact Or.inr h2
      · exact Or.inr h2

/-- Whatever `_find_hab_data_by_id` returns comes from the FWC feature list. -/
lemma find_hab_mem (n : Int) (fwc : FwcData) (hab : Int) (loc : List Char) (f : FwcAttrs)
    (h : find_hab_data_by_id n fwc hab loc = some f) : f ∈ fwc.features := by
  unfold find_hab_data_by_id at h
  cases hfind : fwc.features.find? (fun g => decide (g.HAB_ID = hab)) with
  | some g =>
    rw [hfind] at h
    cases h
    exact List.mem_of_find?_eq_some hfind
  | none =>
    rw [hfind] at h
    rcases fallback_foldl_mem n (lowerStr loc) fwc.features (none, 0) f h with h1 | h2
    · exact h1
    · simp at h2

/-- The per-site loop depends on the clock only through whole-day ages. -/
lemma beachLoop_congr (fwc : FwcData) (n₁ n₂ : Int)
    (h : ∀ f ∈ fwc.features, age_days_of n₁ f.SAMPLE_DATE = age_days_of n₂ f.SAMPLE_DATE) :
    ∀ sites, beachLoop n₁ fwc sites = beachLoop n₂ fwc sites := by
  intro sites
  induction sites with
  | nil => rfl
  | cons s t ih =>
    rw [beachLoop, beachLoop]
    rw [find_hab_congr n₁ n₂ fwc s.HAB_id s.sample_location h]
    cases hfind : find_hab_data_by_id n₂ fwc s.HAB_id s.sample_location with
    | none => exact ih
    | some f =>
      have hf : f ∈ fwc.features := find_hab_mem n₂ fwc _ _ f hfind
      have hcontrib : siteContribution n₁ s f = siteContribution n₂ s f := by
        simp only [siteContribution, h f hf]
      dsimp only
      rw [hcontrib, ih]

/-- Evaluation of the aggregation on the demo inputs with the clock at 100
days (8640000000 ms) after the sample. -/
lemma demoCalc_eq :
    calculate_beach_status 8640000000 demoFwc demoSites = some demoBeachCalc := by
  simp [demoSites, demoFwc, demoBeachCalc, calculate_beach_status, beachLoop,
        find_hab_data_by_id, siteContribution, parse_abundance_number, strHas, strStarts,
        lowerStr, extractGroups, groupsAux, digitComma, parseIntOpt, midpointNums, npText,
        bgText, veryLowText, lowText, veryText, mediumText, highText, statusScore,
        get_distance_weight, age_weight, age_days_of, updateLatest, maxOr0, pyInt,
        List.find?, ratFloor_eq_intFloor]
  norm_num

/-- C1: the claim says the classifier is total — every input string yields a
result without raising.  It is not: on `"low, ,"` the regex extracts the two
comma-only groups `","`, `","`, the `'low'` branch takes the two-group path,
and `int(','.replace(',', ''))` = `int('')` raises `ValueError` (modelled as
`none`). -/
theorem C1_classifier_raises : parse_abundance_number ("low, ,".toList) = none := by decide

/-- C2 (amended): the aggregation is a deterministic function of the sampling
sites, the FWC data, and the clock reading `now`; it depends on `now` only
through the whole-day ages of the FWC features.  In the source, `now` is not
caller-supplied: it is read from a hidden clock (`datetime.now()`, lines 203
and 279). -/
theorem C2_amended (sites : List Site) (fwc : FwcData) (n₁ n₂ : Int)
    (h : ∀ f ∈ fwc.features, age_days_of n₁ f.SAMPLE_DATE = age_days_of n₂ f.SAMPLE_DATE) :
    calculate_beach_status n₁ fwc sites = calculate_beach_status n₂ fwc sites := by
  unfold calculate_beach_status
  rw [beachLoop_congr fwc n₁ n₂ h sites]

/-- C2 witness: two clock readings half a day apart give the same whole-day
ages on the demo data, hence identical results. -/
theorem C2_witness :
    calculate_beach_status 0 demoFwc demoSites =
      calculate_beach_status 43200000 demoFwc demoSites :=
  C2_amended demoSites demoFwc 0 43200000 (by decide)

/-- C2 counterexample: on identical explicit Python inputs (sampling sites and
FWC data), the aggregation result differs between a call made at the sample
instant and one made 100 days later, because the code reads `datetime.now()`
internally — there is a hidden clock dependency. -/
theorem C2_counterexample :
    (calculate_beach_status 0 demoFwc demoSites).map BeachCalc.confidence ≠
    (calculate_beach_status 8640000000 demoFwc demoSites).map BeachCalc.confidence := by
  simp [demoSites, demoFwc, calculate_beach_status, beachLoop, find_hab_data_by_id,
        siteContribution, parse_abundance_number, strHas, strStarts, lowerStr, extractGroups,
        groupsAux, digitComma, parseIntOpt, midpointNums, npText, bgText, veryLowText, lowText,
        veryText, mediumText, highText, statusScore, get_distance_weight, age_weight, age_days_of,
        updateLatest, maxOr0, pyInt, List.find?, ratFloor_eq_intFloor]
  norm_num

/-- C3 (amended): when every child of a rollup has tier `no_data`, the parent
tier is `safe`, not `no_data` as claimed — the worst-status loop starts at
`'safe'` and `no_data` (priority 0) never outranks it. -/
theorem C3_amended (city_name city_region region_name : List Char)
    (children : List BeachStatus) (cities : List CityStatus)
    (h : ∀ b ∈ children, b.current_status = Status.no_data) :
    (processCityCore city_name city_region children).current_status = Status.safe ∧
    (processRegionCore region_name children cities).current_status = Status.safe := by
  constructor <;>
  · simp only [processCityCore, processRegionCore]
    refine worst_all_nodata _ ?_
    intro s hs
    rcases List.mem_map.mp hs with ⟨b, hb, rfl⟩
    exact h b hb

/-- C3 witness: a city and a region over the single `no_data` beach. -/
theorem C3_witness :
    (processCityCore ("Sarasota".toList) ("Gulf".toList) [ndBeach]).current_status =
      Status.safe ∧
    (processRegionCore ("Gulf".toList) [ndBeach] []).current_status = Status.safe :=
  C3_amended ("Sarasota".toList) ("Gulf".toList) ("Gulf".toList) [ndBeach] [] (by decide)

/-- C3 counterexample: `process_city` over one `no_data` beach reports tier
`safe`, not the `no_data` the claim requires. -/
theorem C3_counterexample :
    (process_city ("Sarasota".toList) [ndBeach] ("Gulf".toList)).map CityStatus.current_status
      = some Status.safe ∧
    (process_city ("Sarasota".toList) [ndBeach] ("Gulf".toList)).map CityStatus.current_status
      ≠ some Status.no_data := by
  decide

/-- C4 (amended): for input containing `"low"` but none of `"very"`,
`"not present"`, `"background"` (the code tests `'very' not in`, not
`'very low' not in`, and the first two branches run earlier), the classifier
returns tier `caution` with the floor midpoint of the first two extracted
digit-and-comma groups when two or more exist (raising, i.e. `none`, if one
of them is comma-only), else the default `(5000, caution)`. -/
theorem C4_amended (txt : List Char)
    (hlow : strHas (lowerStr txt) lowText = true)
    (hvery : strHas (lowerStr txt) veryText = false)
    (hnp : strHas (lowerStr txt) npText = false)
    (hbg : strHas (lowerStr txt) bgText = false) :
    parse_abundance_number txt =
      match extractGroups txt with
      | g₀ :: g₁ :: _ => (midpointNums g₀ g₁).map (fun m => (m, Status.caution))
      | _ => some (5000, Status.caution) := by
  have hvl : strHas (lowerStr txt) veryLowText = false := by
    cases h : strHas (lowerStr txt) veryLowText with
    | false => rfl
    | true =>
      have hv : strHas (lowerStr txt) veryText = true :=
        strHas_mono veryLowText veryText (by decide) _ h
      rw [hv] at hvery
      cases hvery
  simp only [parse_abundance_number, hnp, hbg, hvl, hlow, hvery]
  rfl

/-- C4 witness: `"low tide"` satisfies the amended premises, has no digit
groups, and classifies as `(5000, caution)`. -/
theorem C4_witness :
    parse_abundance_number ("low tide".toList) = some (5000, Status.caution) := by
  rw [C4_amended ("low tide".toList) (by decide) (by decide) (by decide) (by decide)]
  decide

/-- C4 counterexample: `"very slow"` contains `"low"` and does not contain
`"very low"`, so the claim requires tier `caution`; the code tests
`'very' not in` and falls through to `(0, safe)`. -/
theorem C4_counterexample :
    strHas (lowerStr ("very slow".toList)) lowText = true ∧
    strHas (lowerStr ("very slow".toList)) veryLowText = false ∧
    parse_abundance_number ("very slow".toList) = some (0, Status.safe) ∧
    (parse_abundance_number ("very slow".toList)).map Prod.snd ≠ some Status.caution := by
  decide

/-- C5 (amended): a rollup over zero children returns Python `None` — an
absent result, not a `no_data`-tier status — and does so exactly when no
child matches (no exception in either case). -/
theorem C5_amended (city_name city_region region_name : List Char)
    (beach_results : List BeachStatus) (city_results : List CityStatus) :
    (process_city city_name beach_results city_region = none ↔
      beach_results.filter (fun b => decide (b.city = city_name)) = []) ∧
    (process_region region_name beach_results city_results = none ↔
      beach_results.filter (fun b => decide (b.region = region_name)) = []) := by
  constructor
  · simp only [process_city]
    by_cases hf : (beach_results.filter (fun b => decide (b.city = city_name))).isEmpty
    · simp [hf, List.isEmpty_iff.mp hf]
    · simp only [hf, if_neg hf]
      constructor
      · intro hc; exact absurd hc (by simp)
      · intro hc; exact absurd hc (by simpa [List.isEmpty_iff] using hf)
  · simp only [process_region]
    by_cases hf : (beach_results.filter (fun b => decide (b.region = region_name))).isEmpty
    · simp [hf, List.isEmpty_iff.mp hf]
    · simp only [hf, if_neg hf]
      constructor
      · intro hc; exact absurd hc (by simp)
      · intro hc; exact absurd hc (by simpa [List.isEmpty_iff] using hf)

/-- C5 counterexample: city and region rollups invoked with zero children
return `None`, not a normal `LocationStatus` with tier `no_data`. -/
theorem C5_counterexample :
    process_city ("Sarasota".toList) [] ("Gulf".toList) = none ∧
    process_region ("Gulf".toList) [] [] = none := by
  decide

/-- C6: the rollup result determines, for each tier including `no_data`, the
number of children at that tier — `beaches_safe`, `beaches_caution`,
`beaches_avoid` directly, and the `no_data` count as `beach_count` minus the
three explicit counts. -/
theorem C6_counts (city_name city_region region_name : List Char)
    (children : List BeachStatus) (cities : List CityStatus) (t : Status) :
    child_counts_by_tier (processCityCore city_name city_region children) t =
      (children.filter (fun b => decide (b.current_status = t))).length ∧
    region_child_counts_by_tier (processRegionCore region_name children cities) t =
      (children.filter (fun b => decide (b.current_status = t))).length := by
  have hp := length_partition children
  cases t <;> constructor <;>
    simp only [child_counts_by_tier, region_child_counts_by_tier,
      processCityCore, processRegionCore] <;>
    omega

/-- C7: replacing one child of a city rollup by a child of strictly higher
priority (worse tier) never lowers the parent tier's priority. -/
theorem C7_monotone (city_name city_region : List Char) (relevant : List BeachStatus)
    (i : Nat) (hi : i < relevant.length) (t' : Status)
    (hworse : status_priority ((relevant.get ⟨i, hi⟩).current_status) < status_priority t') :
    status_priority ((processCityCore city_name city_region relevant).current_status) ≤
      status_priority ((processCityCore city_name city_region
        (relevant.set i (withTier (relevant.get ⟨i, hi⟩) t'))).current_status) := by
  simp only [processCityCore]
  apply worst_status_mono
  apply forall2_map_set
  intro h
  exact le_of_lt hworse

/-- C7 witness: worsening the single safe child to avoid. -/
theorem C7_witness :
    status_priority ((processCityCore ("Sarasota".toList) ("Gulf".toList)
      [safeBeach]).current_status) ≤
    status_priority ((processCityCore ("Sarasota".toList) ("Gulf".toList)
      ([safeBeach].set 0 (withTier safeBeach Status.avoid))).current_status) :=
  C7_monotone ("Sarasota".toList) ("Gulf".toList) [safeBeach] 0 (by decide)
    Status.avoid (by decide)

/-- C8: for every distance at least 0 and every integer sample age, the
combined weight (distance weight times age weight) is positive and at most
one — never zero, thanks to the 0.1 age floor. -/
theorem C8_weight_range (d : ℚ) (a : Int) (_hd : 0 ≤ d) :
    0 < get_distance_weight d * age_weight a ∧ get_distance_weight d * age_weight a ≤ 1 :=
  ⟨mul_pos (distance_weight_pos d) (age_weight_pos a),
   mul_le_one₀ (distance_weight_le_one d) (le_of_lt (age_weight_pos a)) (age_weight_le_one a)⟩

/-- C8 witness: distance 5 miles, age 10 days. -/
theorem C8_witness :
    0 < get_distance_weight 5 * age_weight 10 ∧ get_distance_weight 5 * age_weight 10 ≤ 1 :=
  C8_weight_range 5 10 (by norm_num)

/-- C9 (amended): every confidence the aggregation produces lies in [0, 100] —
the code computes `min(100, int(total_weight*50 + n*10))` with `int`
truncation (floor on these nonnegative values), not `round` as claimed — and
the rollup's integer mean of child confidences stays in [0, 100] whenever
every child's does. -/
theorem C9_amended :
    (∀ (now : Int) (fwc : FwcData) (sites : List Site) (r : BeachCalc),
      calculate_beach_status now fwc sites = some r →
      0 ≤ r.confidence ∧ r.confidence ≤ 100) ∧
    (∀ (city_name city_region : List Char) (children : List BeachStatus),
      children ≠ [] →
      (∀ b ∈ children, 0 ≤ b.confidence_score ∧ b.confidence_score ≤ 100) →
      0 ≤ (processCityCore city_name city_region children).confidence_score ∧
        (processCityCore city_name city_region children).confidence_score ≤ 100) := by
  constructor
  · intro now fwc sites r h
    simp only [calculate_beach_status] at h
    split at h
    · cases h
      exact ⟨le_rfl, by norm_num⟩
    · split at h
      · exact absurd h (by simp)
      · rename_i contribs heq
        split at h
        · cases h
          exact ⟨le_rfl, by norm_num⟩
        · cases h
          refine ⟨le_min (by norm_num) (pyInt_nonneg _ ?_), min_le_left _ _⟩
          have hw : 0 ≤ ((contribs.map Prod.fst).map SiteResult.weight).sum := by
            apply List.sum_nonneg
            intro w hwm
            rcases List.mem_map.mp hwm with ⟨sr, hsr, rfl⟩
            rcases List.mem_map.mp hsr with ⟨c, hcmem, rfl⟩
            exact le_of_lt (beachLoop_weights_pos now fwc sites contribs heq c hcmem)
          have hn : (0:ℚ) ≤ ((contribs.map Prod.fst).length : ℚ) * 10 := by positivity
          nlinarith
  · intro city_name city_region children hne hb
    simp only [processCityCore]
    have hles : (children.map BeachStatus.confidence_score).isEmpty = false := by
      cases children with
      | nil => exact absurd rfl hne
      | cons a t => rfl
    simp only [hles, Bool.false_eq_true, if_false]
    have hlen : 0 < children.length := by
      cases children with
      | nil => exact absurd rfl hne
      | cons a t => simp
    have h0S : 0 ≤ (children.map BeachStatus.confidence_score).sum := by
      apply List.sum_nonneg
      intro x hx
      rcases List.mem_map.mp hx with ⟨b, hb', rfl⟩
      exact (hb b hb').1
    have hSle : (children.map BeachStatus.confidence_score).sum ≤
        100 * (children.length : ℤ) := by
      have hcard := List.sum_le_card_nsmul (children.map BeachStatus.confidence_score) 100
        (by intro x hx; rcases List.mem_map.mp hx with ⟨b, hb', rfl⟩; exact (hb b hb').2)
      simpa [nsmul_eq_mul, mul_comm] using hcard
    have hq0 : (0:ℚ) ≤ ((children.map BeachStatus.confidence_score).sum : ℚ) /
        ((children.map BeachStatus.confidence_score).length : ℚ) := by
      apply div_nonneg
      · exact_mod_cast h0S
      · positivity
    have hq100 : ((children.map BeachStatus.confidence_score).sum : ℚ) /
        ((children.map BeachStatus.confidence_score).length : ℚ) ≤ ((100:ℤ) : ℚ) := by
      rw [div_le_iff₀]
      · rw [List.length_map]
        exact_mod_cast hSle
      · simp only [List.length_map]
        exact_mod_cast hlen
    exact ⟨pyInt_nonneg _ hq0, pyInt_le _ 100 hq0 hq100⟩

/-- C9 witness: the demo aggregation result (confidence 13) and a city rollup
over the single safe beach (confidence 50). -/
theorem C9_witness :
    (0 ≤ demoBeachCalc.confidence ∧ demoBeachCalc.confidence ≤ 100) ∧
    (0 ≤ (processCityCore ("Sarasota".toList) ("Gulf".toList) [safeBeach]).confidence_score ∧
      (processCityCore ("Sarasota".toList) ("Gulf".toList) [safeBeach]).confidence_score ≤ 100) :=
  ⟨C9_amended.1 8640000000 demoFwc demoSites demoBeachCalc demoCalc_eq,
   C9_amended.2 ("Sarasota".toList) ("Gulf".toList) [safeBeach] (by simp) (by decide)⟩

/-- C9 counterexample: on the demo input the code's confidence is
`int(3.5 + 10) = 13`, while the claimed formula `min(100, round(...))` gives
`round(13.5) = 14` — the code truncates, it does not round. -/
theorem C9_counterexample :
    (calculate_beach_status 8640000000 demoFwc demoSites).map spec_confidence_of ≠
    (calculate_beach_status 8640000000 demoFwc demoSites).map BeachCalc.confidence := by
  rw [demoCalc_eq]
  have h14 : spec_confidence_of demoBeachCalc = 14 := by
    norm_num [spec_confidence_of, spec_confidence, pyRound, demoBeachCalc,
      ratFloor_eq_intFloor]
  have h13 : demoBeachCalc.confidence = 13 := rfl
  simp [h14, h13]

/-- C10: on an identical list of child beach statuses, the region rollup and
the city rollup produce identical tier, peak, average, confidence and
per-tier counts; the region's city inputs only determine the informational
`city_count` and `child_cities` fields. -/
theorem C10_city_region_agree (region_name city_name city_region : List Char)
    (beaches : List BeachStatus) (cities cities2 : List CityStatus) :
    ((processRegionCore region_name beaches cities).current_status,
     (processRegionCore region_name beaches cities).peak_count,
     (processRegionCore region_name beaches cities).avg_count,
     (processRegionCore region_name beaches cities).confidence_score,
     (processRegionCore region_name beaches cities).beach_count,
     (processRegionCore region_name beaches cities).beaches_safe,
     (processRegionCore region_name beaches cities).beaches_caution,
     (processRegionCore region_name beaches cities).beaches_avoid) =
    ((processCityCore city_name city_region beaches).current_status,
     (processCityCore city_name city_region beaches).peak_count,
     (processCityCore city_name city_region beaches).avg_count,
     (processCityCore city_name city_region beaches).confidence_score,
     (processCityCore city_name city_region beaches).beach_count,
     (processCityCore city_name city_region beaches).beaches_safe,
     (processCityCore city_name city_region beaches).beaches_caution,
     (processCityCore city_name city_region beaches).beaches_avoid) ∧
    processRegionCore region_name beaches cities =
      { processRegionCore region_name beaches cities2 with
          city_count := cities.length,
          child_cities := cities.map CityStatus.location_name } :=
  ⟨rfl, rfl⟩
